import Mathlib

/-!
Verification development for the synthetic LNG flare-gas data generator
(`generation.py`).  The generator is embedded shallowly:

* machine floats become `ℚ`;
* the two pseudo-random sources (`np.random` for Gaussian draws, `random`
  for uniform draws and `randint`) become explicit oracle streams, threaded
  through the hourly loop by call-counters exactly as the source consumes
  them (a call `np.random.normal(mu, sigma)` is modelled as
  `mu + sigma * gauss k` for the next counter value `k`);
* timestamps become hour offsets from `Y-01-01T00:00` (a `datetime` in the
  source), with calendar conversions (`month`, `hour`, weekday and month
  names) defined from the Gregorian calendar;
* the module-level configuration dictionary `FLARE_CAUSES` is passed to the
  generator as an explicit parameter (the source reads it as a global).
-/

/-- The seven flare causes, in the declaration order of the source's
`contributions` dictionary (and of `FLARE_CAUSES`). -/
inductive Cause
  | normal_operations
  | process_upset
  | equipment_maintenance
  | startup_shutdown
  | emergency_relief
  | compressor_trip
  | instrument_failure
deriving DecidableEq, Fintype

/-- Configuration of one cause.  The source dictionary gives each cause only
a subset of these keys; keys absent in the source are 0 here and are never
read by the generation loop for that cause. -/
structure CauseCfg where
  baseline : ℚ
  avg_rate : ℚ
  std : ℚ
  probability : ℚ

/-- The module-level `FLARE_CAUSES` dictionary.  Fields in order:
baseline, avg_rate, std, probability. -/
def FLARE_CAUSES : Cause → CauseCfg
  | .normal_operations => ⟨100, 0, 8, 0⟩
  | .process_upset => ⟨0, 50, 15, 0.15⟩
  | .equipment_maintenance => ⟨0, 40, 12, 0.10⟩
  | .startup_shutdown => ⟨0, 200, 50, 0.00⟩
  | .emergency_relief => ⟨0, 80, 25, 0.03⟩
  | .compressor_trip => ⟨0, 120, 30, 0.02⟩
  | .instrument_failure => ⟨0, 60, 20, 0.02⟩

/-- The pseudo-random sources, seeded process-wide in the source
(`np.random.seed(42)`; `random.seed(42)`), abstracted as oracle streams:
`gauss k` is the k-th standard-normal draw from `np.random`, `unif k` the
k-th `random.random()` draw, and `rint k` the value of the k-th
`random.randint` call. -/
structure Streams where
  gauss : ℕ → ℚ
  unif : ℕ → ℚ
  rint : ℕ → ℕ

/-- Mutable state carried across loop iterations: the rolling baseline
(`baseline_rate` in the source) and the two stream call-counters. -/
structure GenState where
  baseline_rate : ℚ
  gIdx : ℕ
  uIdx : ℕ

/-- Gregorian leap-year test (as implemented by Python's `datetime`). -/
def isLeap (y : ℕ) : Bool := (y % 4 == 0 && y % 100 != 0) || (y % 400 == 0)

/-- Month lengths January..December. -/
def monthLengths (leap : Bool) : List ℕ :=
  [31, if leap then 29 else 28, 31, 30, 31, 30, 31, 31, 30, 31, 30, 31]

/-- Days of year `y` strictly before month `m` (1-based). -/
def daysBefore (y m : ℕ) : ℕ := ((monthLengths (isLeap y)).take (m - 1)).sum

/-- Hour offset of `datetime(y, m, d, h)` from `datetime(y, 1, 1, 0)`. -/
def toHour (y m d h : ℕ) : ℕ := 24 * (daysBefore y m + (d - 1)) + h

/-- Month (1..12) of the hour offset `t` in year `y` (`dt.month`). -/
def monthOfAux : List ℕ → ℕ → ℕ → ℕ
  | [], _, m => m
  | len :: rest, day, m => if day < len then m else monthOfAux rest (day - len) (m + 1)

/-- Month of the hour offset `t` within year `y`. -/
def monthOf (y t : ℕ) : ℕ := monthOfAux (monthLengths (isLeap y)) (t / 24) 1

/-- English month names, for `dt.strftime` with the month-name format. -/
def monthNames : List String :=
  ["January", "February", "March", "April", "May", "June", "July",
   "August", "September", "October", "November", "December"]

/-- Month name of hour offset `t` in year `y`. -/
def monthName (y t : ℕ) : String := monthNames.getD (monthOf y t - 1) ""

/-- Weekday (0 = Sunday) of January 1st of year `y`, by Gauss's formula;
matches Python's `datetime` calendar. -/
def jan1Weekday (y : ℕ) : ℕ :=
  (1 + 5 * ((y - 1) % 4) + 4 * ((y - 1) % 100) + 6 * ((y - 1) % 400)) % 7

/-- English weekday names indexed from Sunday. -/
def weekNames : List String :=
  ["Sunday", "Monday", "Tuesday", "Wednesday", "Thursday", "Friday", "Saturday"]

/-- Weekday name of hour offset `t` in year `y` (`dt.strftime` with the
weekday format). -/
def dayName (y t : ℕ) : String := weekNames.getD ((jan1Weekday y + t / 24) % 7) ""

/-- The four fixed shutdown anchor dates of the year, as hour offsets:
Feb 15, Apr 20, Jul 10, Oct 5. -/
def shutdownDates (y : ℕ) : List ℕ :=
  [toHour y 2 15 0, toHour y 4 20 0, toHour y 7 10 0, toHour y 10 5 0]

/-- `[start, start+1, ..., start+dur-1]`: the hours appended for one
shutdown window by the inner `for h in range(duration_hours)` loop. -/
def expandWindow (start dur : ℕ) : List ℕ := (List.range dur).map (fun h => start + h)

/-- The shutdown-scheduling loop: for each anchor date, draw
`duration_hours = randint(24, 72)` then `start_offset = randint(0, 23)`
(consecutive `rint` counter values), and append the window's hours. -/
def shutdownEventsAux (rint : ℕ → ℕ) : List ℕ → ℕ → List ℕ
  | [], _ => []
  | d :: rest, k => expandWindow (d + rint (k + 1)) (rint k) ++ shutdownEventsAux rint rest (k + 2)

/-- The `shutdown_events` list of hour offsets. -/
def shutdownEvents (y : ℕ) (rint : ℕ → ℕ) : List ℕ :=
  shutdownEventsAux rint (shutdownDates y) 0

/-- `np.clip x lo hi`. -/
def clip (x lo hi : ℚ) : ℚ := min hi (max lo x)

/-- Python's `round(x, 2)`.  Ties are rounded half-up here where Python
uses the float nearest to the decimal and half-even; no result below
depends on the tie convention (no input used hits an exact tie). -/
def round2 (x : ℚ) : ℚ := ((round (100 * x) : ℤ) : ℚ) / 100

/-- Functional update of a contributions table at one cause
(`contributions[c] = v`). -/
def updateC (f : Cause → ℚ) (c : Cause) (v : ℚ) : Cause → ℚ :=
  fun d => if d = c then v else f d

/-- The causes in the declaration order of the `contributions` dictionary. -/
def causeList : List Cause :=
  [.normal_operations, .process_upset, .equipment_maintenance, .startup_shutdown,
   .emergency_relief, .compressor_trip, .instrument_failure]

/-- The five probabilistically injected causes, in the order of the
source's inner loop. -/
def probCauses : List Cause :=
  [.process_upset, .equipment_maintenance, .emergency_relief,
   .compressor_trip, .instrument_failure]

/-- The probabilistic-injection loop: for each cause in order, consume one
uniform draw; when it is below the cause's probability, consume one
Gaussian draw and set the contribution to `max 0 (avg + std * z)`.
Returns the updated table and the two advanced counters.  The model
`avg + std * z` of `np.random.normal(avg, std)` is faithful only for a
nonnegative `std`: numpy rejects a negative scale with an error, a path
outside this embedding (every std in the shipped configuration is
nonnegative). -/
def injectLoop (cfg : Cause → CauseCfg) (s : Streams) :
    List Cause → (Cause → ℚ) → ℕ → ℕ → ((Cause → ℚ) × ℕ × ℕ)
  | [], f, g, u => (f, g, u)
  | c :: rest, f, g, u =>
    if s.unif u < (cfg c).probability then
      injectLoop cfg s rest
        (updateC f c (max 0 ((cfg c).avg_rate + (cfg c).std * s.gauss g))) (g + 1) (u + 1)
    else
      injectLoop cfg s rest f g (u + 1)

/-- One hour of the generation loop, up to (raw, unrounded) contributions:
baseline random-walk update with clamp, normal-operations draw, diurnal and
seasonal multipliers, then either the shutdown draw or the probabilistic
injections.  Returns the contributions table and the next state.  As in
`injectLoop`, each Gaussian call is modelled as `mu + sigma * gauss k`,
faithful to `np.random.normal` only for nonnegative sigma (numpy rejects a
negative scale); the shipped configuration satisfies this. -/
def hourContribs (cfg : Cause → CauseCfg) (y : ℕ) (s : Streams) (st : GenState) (t : ℕ) :
    (Cause → ℚ) × GenState :=
  let b := clip (st.baseline_rate + 0.5 * s.gauss st.gIdx) 80 120
  let rawN := max 0 (b + (cfg Cause.normal_operations).std * s.gauss (st.gIdx + 1))
  let h := t % 24
  let n1 := if h < 6 then rawN * 0.95 else if 8 ≤ h ∧ h < 16 then rawN * 1.02 else rawN
  let m := monthOf y t
  let n2 := if 6 ≤ m ∧ m ≤ 8 then n1 * 1.05 else n1
  let c1 := updateC (fun _ => 0) Cause.normal_operations n2
  if t ∈ shutdownEvents y s.rint then
    let sd := max 0 ((cfg Cause.startup_shutdown).avg_rate
      + (cfg Cause.startup_shutdown).std * s.gauss (st.gIdx + 2))
    (updateC c1 Cause.startup_shutdown sd, ⟨b, st.gIdx + 3, st.uIdx⟩)
  else
    let r := injectLoop cfg s probCauses c1 (st.gIdx + 2) st.uIdx
    (r.1, ⟨b, r.2.1, r.2.2⟩)

/-- `sum(contributions.values())`. -/
def sumValues (f : Cause → ℚ) : ℚ := (causeList.map f).sum

/-- The severity assignment chain: start at low, override to high above
350, else to medium above 200. -/
def severityOf (x : ℚ) : String :=
  if x > 350 then "high" else if x > 200 then "medium" else "low"

/-- Python's `max(items, key=value)` scan: the running best is replaced
only on a strictly larger value, so the first maximum wins. -/
def pyMaxAux (f : Cause → ℚ) : List Cause → Cause → Cause
  | [], best => best
  | c :: rest, best => pyMaxAux f rest (if f best < f c then c else best)

/-- `max(contributions.items(), key=...)[0]` over the insertion order of
the `contributions` dictionary. -/
def pyMax (f : Cause → ℚ) : Cause :=
  pyMaxAux f causeList.tail Cause.normal_operations

/-- One exported row.  `contrib c` is the rounded per-cause column
(the seven `..._m3_per_hour` columns). -/
structure Record where
  timestamp : ℕ
  total_flare_rate_m3_per_hour : ℚ
  contrib : Cause → ℚ
  dominant_cause : Cause
  severity : String
  day_of_week : String
  month : String
  hour : ℕ

/-- One full loop iteration: raw contributions, exact total, severity and
dominant cause from the unrounded values, then the exported row with every
rate rounded to two decimals. -/
def stepHour (cfg : Cause → CauseCfg) (y : ℕ) (s : Streams) (st : GenState) (t : ℕ) :
    Record × GenState :=
  let fc := hourContribs cfg y s st t
  let total := sumValues fc.1
  (⟨t, round2 total, fun c => round2 (fc.1 c), pyMax fc.1, severityOf total,
    dayName y t, monthName y t, t % 24⟩, fc.2)

/-- State before hour `t`: baseline 100 and fresh counters before hour 0,
then the state left by each iteration. -/
def stateAt (cfg : Cause → CauseCfg) (y : ℕ) (s : Streams) : ℕ → GenState
  | 0 => ⟨100, 0, 0⟩
  | t + 1 => (stepHour cfg y s (stateAt cfg y s t) t).2

/-- Number of hourly timestamps from `Y-01-01T00:00` to `Y-12-31T23:00`
inclusive. -/
def numHours (y : ℕ) : ℕ := toHour y 12 31 23 + 1

/-- `pd.date_range(start, end, freq=hourly)` as hour offsets. -/
def date_range (y : ℕ) : List ℕ := List.range (numHours y)

/-- The generator: the exported table, one row per hour in order.  The
configuration and the random streams are globals in the source, passed
explicitly here. -/
def generate_flare_data (cfg : Cause → CauseCfg) (year : ℕ) (s : Streams) : List Record :=
  (date_range year).map (fun t => (stepHour cfg year s (stateAt cfg year s t) t).1)

/-- Raw (unrounded) contributions of hour `i` of the generation pass. -/
def rawAt (cfg : Cause → CauseCfg) (y : ℕ) (s : Streams) (i : ℕ) : Cause → ℚ :=
  (hourContribs cfg y s (stateAt cfg y s i) i).1

/-- The exported row of hour `i` of the generation pass. -/
def recordAt (cfg : Cause → CauseCfg) (y : ℕ) (s : Streams) (i : ℕ) : Record :=
  (stepHour cfg y s (stateAt cfg y s i) i).1

lemma generate_length (cfg : Cause → CauseCfg) (y : ℕ) (s : Streams) :
    (generate_flare_data cfg y s).length = numHours y := by
  simp [generate_flare_data, date_range]

lemma generate_getElem (cfg : Cause → CauseCfg) (y : ℕ) (s : Streams) {i : ℕ}
    (hi : i < numHours y) :
    (generate_flare_data cfg y s)[i]? = some (recordAt cfg y s i) := by
  simp [generate_flare_data, date_range, recordAt, List.getElem?_map, List.getElem?_range, hi]

lemma generate_timestamps (cfg : Cause → CauseCfg) (y : ℕ) (s : Streams) :
    (generate_flare_data cfg y s).map Record.timestamp = List.range (numHours y) := by
  unfold generate_flare_data date_range
  rw [List.map_map]
  have h : (Record.timestamp ∘ fun t => (stepHour cfg y s (stateAt cfg y s t) t).1) = id :=
    funext fun t => rfl
  rw [h, List.map_id]

lemma numHours_eq (y : ℕ) : numHours y = if isLeap y then 8784 else 8760 := by
  cases h : isLeap y <;>
    simp only [numHours, toHour, daysBefore, monthLengths, h, if_false, if_true] <;> decide

/-- C1: for every year, the generated table has one row per hour — 8784 for
a leap year, else 8760 — and its timestamps are exactly the hourly sequence
from Y-01-01T00:00 to Y-12-31T23:00: strictly increasing, no gaps, no
duplicates. -/
theorem C1_completeness (cfg : Cause → CauseCfg) (y : ℕ) (s : Streams) :
    (generate_flare_data cfg y s).map Record.timestamp = List.range (numHours y) ∧
    (generate_flare_data cfg y s).length = (if isLeap y then 8784 else 8760) ∧
    ((generate_flare_data cfg y s).map Record.timestamp).Sorted (· < ·) ∧
    (∀ t, t ∈ (generate_flare_data cfg y s).map Record.timestamp ↔
      toHour y 1 1 0 ≤ t ∧ t ≤ toHour y 12 31 23) := by
  refine ⟨generate_timestamps cfg y s, ?_, ?_, ?_⟩
  · rw [generate_length, numHours_eq]
  · rw [generate_timestamps]
    exact List.sorted_lt_range _
  · intro t
    rw [generate_timestamps, List.mem_range]
    unfold numHours
    have h0 : toHour y 1 1 0 = 0 := rfl
    omega

lemma clip_mem (x lo hi : ℚ) (h : lo ≤ hi) : lo ≤ clip x lo hi ∧ clip x lo hi ≤ hi :=
  ⟨le_min h (le_max_left lo x), min_le_left hi _⟩

lemma stateAt_succ_baseline (cfg : Cause → CauseCfg) (y : ℕ) (s : Streams) (i : ℕ) :
    (stateAt cfg y s (i + 1)).baseline_rate =
      clip ((stateAt cfg y s i).baseline_rate + 0.5 * s.gauss (stateAt cfg y s i).gIdx)
        80 120 := by
  show (stepHour cfg y s (stateAt cfg y s i) i).2.baseline_rate = _
  unfold stepHour hourContribs
  split <;> rfl

/-- C7: the rolling baseline starts at 100, each hour is updated by adding
the Gaussian(0, 0.5) draw and clamping to [80, 120] before noise is added,
and hence stays within [80, 120] at every hour of the pass. -/
theorem C7_baseline_bounds (cfg : Cause → CauseCfg) (y : ℕ) (s : Streams) :
    (stateAt cfg y s 0).baseline_rate = 100 ∧
    ∀ i : ℕ,
      (stateAt cfg y s (i + 1)).baseline_rate =
        clip ((stateAt cfg y s i).baseline_rate + 0.5 * s.gauss (stateAt cfg y s i).gIdx)
          80 120 ∧
      80 ≤ (stateAt cfg y s (i + 1)).baseline_rate ∧
      (stateAt cfg y s (i + 1)).baseline_rate ≤ 120 := by
  refine ⟨rfl, fun i => ⟨stateAt_succ_baseline cfg y s i, ?_, ?_⟩⟩ <;>
    rw [stateAt_succ_baseline cfg y s i]
  · exact (clip_mem _ _ _ (by norm_num)).1
  · exact (clip_mem _ _ _ (by norm_num)).2

/-- C8: the generator is a deterministic function of the year and the
seeded random streams: two runs over equal streams (as produced by the
fixed process-wide seed) yield identical tables; the only inputs are the
year, the configuration and the streams — no caller-supplied entropy. -/
theorem C8_determinism (cfg : Cause → CauseCfg) (y : ℕ) (s1 s2 : Streams)
    (hg : ∀ k, s1.gauss k = s2.gauss k) (hu : ∀ k, s1.unif k = s2.unif k)
    (hr : ∀ k, s1.rint k = s2.rint k) :
    generate_flare_data cfg y s1 = generate_flare_data cfg y s2 := by
  have h : s1 = s2 := by
    cases s1
    cases s2
    simp only [Streams.mk.injEq]
    exact ⟨funext hg, funext hu, funext hr⟩
  rw [h]

/-- Streams used as concrete witnesses: no Gaussian noise, uniform draws
at 1 (no probabilistic injections), every shutdown duration 24 hours at
offset 0. -/
def zeroStreams : Streams :=
  ⟨fun _ => 0, fun _ => 1, fun k => if k % 2 = 0 then 24 else 0⟩

theorem C8_determinism_witness :
    generate_flare_data FLARE_CAUSES 2024 zeroStreams =
      generate_flare_data FLARE_CAUSES 2024 zeroStreams :=
  C8_determinism FLARE_CAUSES 2024 zeroStreams zeroStreams
    (fun _ => rfl) (fun _ => rfl) (fun _ => rfl)

/-- A cause configuration is valid when no standard deviation is negative
and every hourly probability lies in [0, 1]. -/
def validConfig (cfg : Cause → CauseCfg) : Prop :=
  ∀ c : Cause, 0 ≤ (cfg c).std ∧ 0 ≤ (cfg c).probability ∧ (cfg c).probability ≤ 1

/-- C9 (amended): generation performs no configuration validation and
raises no configuration error: for every configuration whose standard
deviations are nonnegative (so that every Gaussian call stays within
numpy's domain and the embedding is faithful), the hourly loop runs to
completion and a full-length table is returned even when an hourly
probability lies outside [0, 1]; the shipped `FLARE_CAUSES` configuration
is statically valid. -/
theorem C9_no_validation (cfg : Cause → CauseCfg) (y : ℕ) (s : Streams)
    (_hstd : ∀ c : Cause, 0 ≤ (cfg c).std) :
    (generate_flare_data cfg y s).length = numHours y ∧ validConfig FLARE_CAUSES :=
  ⟨generate_length cfg y s, fun c => by cases c <;> norm_num [FLARE_CAUSES]⟩

/-- An invalid configuration with every hourly probability above 1; its
standard deviations are 0, so every Gaussian call it induces is legal for
numpy and the real program runs the loop with it. -/
def badCfg : Cause → CauseCfg := fun _ => ⟨0, 0, 0, 2⟩

/-- C9 counterexample: the out-of-range-probability configuration is not
rejected eagerly with a configuration error — the generator silently runs
the hourly loop (every probabilistic cause now fires each non-shutdown
hour) and produces the full 8784-row table for 2024. -/
theorem C9_cex :
    ¬ validConfig badCfg ∧
      (generate_flare_data badCfg 2024 zeroStreams).length = 8784 := by
  constructor
  · intro h
    have h2 := (h Cause.normal_operations).2.2
    norm_num [badCfg] at h2
  · rw [generate_length, numHours_eq]
    decide

theorem C9_no_validation_witness :
    (generate_flare_data badCfg 2024 zeroStreams).length = numHours 2024 ∧
      validConfig FLARE_CAUSES :=
  C9_no_validation badCfg 2024 zeroStreams (fun _ => le_refl 0)

lemma round2_zero : round2 0 = 0 := by simp [round2]

lemma recordAt_contrib (cfg : Cause → CauseCfg) (y : ℕ) (s : Streams) (i : ℕ) :
    (recordAt cfg y s i).contrib = fun c => round2 (rawAt cfg y s i c) := rfl

lemma recordAt_severity (cfg : Cause → CauseCfg) (y : ℕ) (s : Streams) (i : ℕ) :
    (recordAt cfg y s i).severity = severityOf (sumValues (rawAt cfg y s i)) := rfl

lemma recordAt_total (cfg : Cause → CauseCfg) (y : ℕ) (s : Streams) (i : ℕ) :
    (recordAt cfg y s i).total_flare_rate_m3_per_hour =
      round2 (sumValues (rawAt cfg y s i)) := rfl

lemma recordAt_dominant (cfg : Cause → CauseCfg) (y : ℕ) (s : Streams) (i : ℕ) :
    (recordAt cfg y s i).dominant_cause = pyMax (rawAt cfg y s i) := rfl

lemma injectLoop_not_mem (cfg : Cause → CauseCfg) (s : Streams) (l : List Cause) :
    ∀ (f : Cause → ℚ) (g u : ℕ) {c : Cause}, c ∉ l →
      (injectLoop cfg s l f g u).1 c = f c := by
  induction l with
  | nil => intro f g u c _; rfl
  | cons a rest ih =>
    intro f g u c h
    have hca : c ≠ a := fun e => h (e ▸ List.mem_cons_self a rest)
    have hcr : c ∉ rest := fun e => h (List.mem_cons_of_mem a e)
    simp only [injectLoop]
    split
    · rw [ih _ _ _ hcr]
      simp [updateC, hca]
    · exact ih _ _ _ hcr

lemma rawAt_shutdown_zero (cfg : Cause → CauseCfg) (y : ℕ) (s : Streams) (i : ℕ)
    (h : i ∈ shutdownEvents y s.rint) {c : Cause} (hc : c ∈ probCauses) :
    rawAt cfg y s i c = 0 := by
  simp only [rawAt, hourContribs, h, if_true]
  fin_cases hc <;> simp [updateC]

lemma rawAt_not_shutdown_ss (cfg : Cause → CauseCfg) (y : ℕ) (s : Streams) (i : ℕ)
    (h : i ∉ shutdownEvents y s.rint) :
    rawAt cfg y s i Cause.startup_shutdown = 0 := by
  simp only [rawAt, hourContribs, h, if_false]
  rw [injectLoop_not_mem cfg s probCauses _ _ _ (by decide)]
  simp [updateC]

/-- C2: during every hour inside an expanded shutdown window, the raw and
the exported contributions of the five probabilistic causes
(process_upset, equipment_maintenance, emergency_relief, compressor_trip,
instrument_failure) are all exactly 0: none of them is injected while a
shutdown is active. -/
theorem C2_shutdown_exclusivity (cfg : Cause → CauseCfg) (y : ℕ) (s : Streams) (i : ℕ)
    (hi : i < numHours y) (hsd : i ∈ shutdownEvents y s.rint) :
    (generate_flare_data cfg y s)[i]? = some (recordAt cfg y s i) ∧
    ∀ c ∈ probCauses,
      rawAt cfg y s i c = 0 ∧ (recordAt cfg y s i).contrib c = 0 := by
  refine ⟨generate_getElem cfg y s hi, fun c hc =>
    ⟨rawAt_shutdown_zero cfg y s i hsd hc, ?_⟩⟩
  simp only [recordAt_contrib]
  rw [rawAt_shutdown_zero cfg y s i hsd hc, round2_zero]

theorem C2_shutdown_exclusivity_witness :
    (generate_flare_data FLARE_CAUSES 2024 zeroStreams)[1080]? =
      some (recordAt FLARE_CAUSES 2024 zeroStreams 1080) ∧
    ∀ c ∈ probCauses,
      rawAt FLARE_CAUSES 2024 zeroStreams 1080 c = 0 ∧
      (recordAt FLARE_CAUSES 2024 zeroStreams 1080).contrib c = 0 :=
  C2_shutdown_exclusivity FLARE_CAUSES 2024 zeroStreams 1080 (by decide) (by decide)

/-- C3: the startup_shutdown contribution (raw or exported) is strictly
positive only for hours inside an expanded shutdown window, and is exactly
0 for every hour outside all windows. -/
theorem C3_startup_exclusivity (cfg : Cause → CauseCfg) (y : ℕ) (s : Streams) (i : ℕ)
    (hi : i < numHours y) :
    (generate_flare_data cfg y s)[i]? = some (recordAt cfg y s i) ∧
    (i ∉ shutdownEvents y s.rint →
      rawAt cfg y s i Cause.startup_shutdown = 0 ∧
      (recordAt cfg y s i).contrib Cause.startup_shutdown = 0) ∧
    (0 < rawAt cfg y s i Cause.startup_shutdown → i ∈ shutdownEvents y s.rint) ∧
    (0 < (recordAt cfg y s i).contrib Cause.startup_shutdown →
      i ∈ shutdownEvents y s.rint) := by
  refine ⟨generate_getElem cfg y s hi, ?_, ?_, ?_⟩
  · intro h
    refine ⟨rawAt_not_shutdown_ss cfg y s i h, ?_⟩
    simp only [recordAt_contrib]
    rw [rawAt_not_shutdown_ss cfg y s i h, round2_zero]
  · intro hpos
    by_contra h
    rw [rawAt_not_shutdown_ss cfg y s i h] at hpos
    exact lt_irrefl 0 hpos
  · intro hpos
    by_contra h
    simp only [recordAt_contrib, rawAt_not_shutdown_ss cfg y s i h, round2_zero] at hpos
    exact lt_irrefl 0 hpos

theorem C3_startup_exclusivity_witness :
    (generate_flare_data FLARE_CAUSES 2024 zeroStreams)[0]? =
      some (recordAt FLARE_CAUSES 2024 zeroStreams 0) ∧
    (0 ∉ shutdownEvents 2024 zeroStreams.rint →
      rawAt FLARE_CAUSES 2024 zeroStreams 0 Cause.startup_shutdown = 0 ∧
      (recordAt FLARE_CAUSES 2024 zeroStreams 0).contrib Cause.startup_shutdown = 0) ∧
    (0 < rawAt FLARE_CAUSES 2024 zeroStreams 0 Cause.startup_shutdown →
      0 ∈ shutdownEvents 2024 zeroStreams.rint) ∧
    (0 < (recordAt FLARE_CAUSES 2024 zeroStreams 0).contrib Cause.startup_shutdown →
      0 ∈ shutdownEvents 2024 zeroStreams.rint) :=
  C3_startup_exclusivity FLARE_CAUSES 2024 zeroStreams 0 (by decide)

/-- Range constraints documented for the two `randint` calls of each
anchor: `randint(24, 72)` for the duration (even counter indices) and
`randint(0, 23)` for the start offset (odd counter indices). -/
def RintValid (r : ℕ → ℕ) : Prop :=
  ∀ j < 4, (24 ≤ r (2 * j) ∧ r (2 * j) ≤ 72) ∧ r (2 * j + 1) ≤ 23

/-- First hour of the j-th shutdown window: its anchor date plus the drawn
start offset. -/
def winStart (y : ℕ) (r : ℕ → ℕ) (j : ℕ) : ℕ :=
  (shutdownDates y).getD j 0 + r (2 * j + 1)

/-- The j-th expanded shutdown window (0 ≤ j < 4). -/
def window (y : ℕ) (r : ℕ → ℕ) (j : ℕ) : List ℕ :=
  expandWindow (winStart y r j) (r (2 * j))

lemma mem_expandWindow {x start dur : ℕ} :
    x ∈ expandWindow start dur ↔ start ≤ x ∧ x < start + dur := by
  simp only [expandWindow, List.mem_map, List.mem_range]
  constructor
  · rintro ⟨a, ha, rfl⟩
    omega
  · intro h
    exact ⟨x - start, by omega, by omega⟩

lemma shutdownEvents_decomp (y : ℕ) (r : ℕ → ℕ) :
    shutdownEvents y r =
      window y r 0 ++ (window y r 1 ++ (window y r 2 ++ window y r 3)) := by
  simp only [shutdownEvents, shutdownDates, shutdownEventsAux, window, winStart,
    List.append_nil, List.getD]
  norm_num

lemma anchor_gap (y : ℕ) {j k : ℕ} (hjk : j < k) (hk : k < 4) :
    (shutdownDates y).getD j 0 + 96 ≤ (shutdownDates y).getD k 0 := by
  have hj : j < 3 := by omega
  cases hl : isLeap y <;>
    simp only [shutdownDates, toHour, daysBefore, monthLengths, hl] <;>
    interval_cases j <;> interval_cases k <;> simp_all

/-- C10: for the four fixed anchors (Feb 15, Apr 20, Jul 10, Oct 5) and
every admissible draw of durations in [24, 72] and start offsets in
[0, 23], the shutdown-events list is the concatenation of 4 windows; each
window is a contiguous run of exactly `duration` consecutive hours ending
at most 95 hours after its anchor, and the windows are pairwise disjoint. -/
theorem C10_shutdown_windows (y : ℕ) (r : ℕ → ℕ) (hv : RintValid r) :
    shutdownEvents y r =
      window y r 0 ++ (window y r 1 ++ (window y r 2 ++ window y r 3)) ∧
    (∀ j < 4, (window y r j).length = r (2 * j) ∧
      (∀ x, x ∈ window y r j ↔
        winStart y r j ≤ x ∧ x < winStart y r j + r (2 * j)) ∧
      winStart y r j + r (2 * j) ≤ (shutdownDates y).getD j 0 + 95) ∧
    ∀ j k, j < k → k < 4 → ∀ x, x ∈ window y r j → x ∉ window y r k := by
  refine ⟨shutdownEvents_decomp y r, fun j hj => ⟨?_, fun x => mem_expandWindow, ?_⟩,
    fun j k hjk hk x hx hx2 => ?_⟩
  · simp [window, expandWindow]
  · have h1 := (hv j hj).1.2
    have h2 := (hv j hj).2
    unfold winStart
    omega
  · rw [window, mem_expandWindow] at hx hx2
    have h1 := (hv j (by omega)).1.2
    have h2 := (hv j (by omega)).2
    have h3 := anchor_gap y hjk hk
    unfold winStart at hx hx2
    omega

theorem C10_shutdown_windows_witness :
    shutdownEvents 2024 zeroStreams.rint =
      window 2024 zeroStreams.rint 0 ++ (window 2024 zeroStreams.rint 1 ++
        (window 2024 zeroStreams.rint 2 ++ window 2024 zeroStreams.rint 3)) ∧
    (∀ j < 4, (window 2024 zeroStreams.rint j).length = zeroStreams.rint (2 * j) ∧
      (∀ x, x ∈ window 2024 zeroStreams.rint j ↔
        winStart 2024 zeroStreams.rint j ≤ x ∧
          x < winStart 2024 zeroStreams.rint j + zeroStreams.rint (2 * j)) ∧
      winStart 2024 zeroStreams.rint j + zeroStreams.rint (2 * j) ≤
        (shutdownDates 2024).getD j 0 + 95) ∧
    ∀ j k, j < k → k < 4 → ∀ x, x ∈ window 2024 zeroStreams.rint j →
      x ∉ window 2024 zeroStreams.rint k :=
  C10_shutdown_windows 2024 zeroStreams.rint (by unfold RintValid; decide)

lemma severityOf_high (x : ℚ) : severityOf x = "high" ↔ 350 < x := by
  unfold severityOf
  split_ifs with h1 h2
  · exact iff_of_true rfl h1
  · exact iff_of_false (by decide) h1
  · exact iff_of_false (by decide) h1

lemma severityOf_medium (x : ℚ) : severityOf x = "medium" ↔ 200 < x ∧ x ≤ 350 := by
  unfold severityOf
  split_ifs with h1 h2
  · exact iff_of_false (by decide) (fun h => absurd h1 (not_lt.mpr h.2))
  · exact iff_of_true rfl ⟨h2, not_lt.mp h1⟩
  · exact iff_of_false (by decide) (fun h => h2 h.1)

lemma severityOf_low (x : ℚ) : severityOf x = "low" ↔ x ≤ 200 := by
  unfold severityOf
  split_ifs with h1 h2
  · exact iff_of_false (by decide) (fun h => absurd h1 (not_lt.mpr (h.trans (by norm_num))))
  · exact iff_of_false (by decide) (fun h => absurd h2 (not_lt.mpr h))
  · exact iff_of_true rfl (not_lt.mp h2)

/-- C4 (amended): severity is derived from the record's exact
(pre-rounding) total — the sum of the raw contributions — by the fixed
thresholds: high iff it exceeds 350, medium iff it lies in (200, 350],
low iff it is at most 200; the exported total is the rounding of that
exact total. -/
theorem C4_severity_thresholds (cfg : Cause → CauseCfg) (y : ℕ) (s : Streams) (i : ℕ)
    (hi : i < numHours y) :
    (generate_flare_data cfg y s)[i]? = some (recordAt cfg y s i) ∧
    (recordAt cfg y s i).total_flare_rate_m3_per_hour =
      round2 (sumValues (rawAt cfg y s i)) ∧
    ((recordAt cfg y s i).severity = "high" ↔ 350 < sumValues (rawAt cfg y s i)) ∧
    ((recordAt cfg y s i).severity = "medium" ↔
      200 < sumValues (rawAt cfg y s i) ∧ sumValues (rawAt cfg y s i) ≤ 350) ∧
    ((recordAt cfg y s i).severity = "low" ↔ sumValues (rawAt cfg y s i) ≤ 200) := by
  refine ⟨generate_getElem cfg y s hi, recordAt_total cfg y s i, ?_, ?_, ?_⟩ <;>
    rw [recordAt_severity]
  · exact severityOf_high _
  · exact severityOf_medium _
  · exact severityOf_low _

theorem C4_severity_thresholds_witness :
    (generate_flare_data FLARE_CAUSES 2024 zeroStreams)[0]? =
      some (recordAt FLARE_CAUSES 2024 zeroStreams 0) ∧
    (recordAt FLARE_CAUSES 2024 zeroStreams 0).total_flare_rate_m3_per_hour =
      round2 (sumValues (rawAt FLARE_CAUSES 2024 zeroStreams 0)) ∧
    ((recordAt FLARE_CAUSES 2024 zeroStreams 0).severity = "high" ↔
      350 < sumValues (rawAt FLARE_CAUSES 2024 zeroStreams 0)) ∧
    ((recordAt FLARE_CAUSES 2024 zeroStreams 0).severity = "medium" ↔
      200 < sumValues (rawAt FLARE_CAUSES 2024 zeroStreams 0) ∧
        sumValues (rawAt FLARE_CAUSES 2024 zeroStreams 0) ≤ 350) ∧
    ((recordAt FLARE_CAUSES 2024 zeroStreams 0).severity = "low" ↔
      sumValues (rawAt FLARE_CAUSES 2024 zeroStreams 0) ≤ 200) :=
  C4_severity_thresholds FLARE_CAUSES 2024 zeroStreams 0 (by decide)

/-- Streams exhibiting a boundary case for C4: at hour 0 the raw
contributions are normal_operations = 0.004 and process_upset = 350, so the
exact total 350.004 exceeds 350 (severity high) while the exported rounded
total is exactly 350. -/
def sC4 : Streams :=
  ⟨fun k => if k = 1 then -23749/1900 else if k = 2 then 20 else 0,
   fun k => if k = 0 then 0 else 1,
   fun k => if k % 2 = 0 then 24 else 0⟩

/-- C4 counterexample: a record whose severity is high although its
exported total_flare_rate_m3_per_hour is not greater than 350 — severity is
derived from the pre-rounding total, not from the exported value, so the
claimed equivalence against the exported column is false. -/
theorem C4_severity_cex :
    (generate_flare_data FLARE_CAUSES 2024 sC4)[0]? =
      some (recordAt FLARE_CAUSES 2024 sC4 0) ∧
    (recordAt FLARE_CAUSES 2024 sC4 0).severity = "high" ∧
    ¬ 350 < (recordAt FLARE_CAUSES 2024 sC4 0).total_flare_rate_m3_per_hour := by
  have hns : (0:ℕ) ∉ shutdownEvents 2024 (fun k => if k % 2 = 0 then 24 else 0) := by decide
  have hraw : rawAt FLARE_CAUSES 2024 sC4 0 =
      updateC (updateC (fun _ => 0) Cause.normal_operations (1/250))
        Cause.process_upset 350 := by
    norm_num [rawAt, hourContribs, stateAt, hns, injectLoop, probCauses, clip, sC4,
      FLARE_CAUSES, monthOf, monthOfAux, monthLengths, isLeap]
  have hT : sumValues (rawAt FLARE_CAUSES 2024 sC4 0) = 87501/250 := by
    rw [hraw]
    simp [sumValues, causeList, updateC]
    norm_num
  refine ⟨generate_getElem FLARE_CAUSES 2024 sC4 (by decide), ?_, ?_⟩
  · rw [recordAt_severity, hT]
    norm_num [severityOf]
  · rw [recordAt_total, hT]
    norm_num [round2, round_eq]

lemma pyMaxAux_split (f : Cause → ℚ) :
    ∀ (l : List Cause) (b : Cause),
      (pyMaxAux f l b = b ∧ ∀ c ∈ l, f c ≤ f b) ∨
      ∃ l1 c l2, l = l1 ++ c :: l2 ∧ pyMaxAux f l b = c ∧ f b < f c ∧
        (∀ d ∈ l1, f d < f c) ∧ ∀ d ∈ l2, f d ≤ f c := by
  intro l
  induction l with
  | nil => exact fun b => Or.inl ⟨rfl, by simp⟩
  | cons a rest ih =>
    intro b
    by_cases hab : f b < f a
    · have he : pyMaxAux f (a :: rest) b = pyMaxAux f rest a := by
        simp [pyMaxAux, hab]
      rcases ih a with ⟨h1, h2⟩ | ⟨l1, c, l2, hsplit, hval, hlt, hl1, hl2⟩
      · exact Or.inr ⟨[], a, rest, by simp, by rw [he, h1], hab, by simp, h2⟩
      · refine Or.inr ⟨a :: l1, c, l2, by rw [hsplit]; rfl, by rw [he, hval],
          lt_trans hab hlt, ?_, hl2⟩
        intro d hd
        rcases List.mem_cons.mp hd with rfl | hd2
        · exact hlt
        · exact hl1 d hd2
    · have he : pyMaxAux f (a :: rest) b = pyMaxAux f rest b := by
        simp [pyMaxAux, hab]
      rcases ih b with ⟨h1, h2⟩ | ⟨l1, c, l2, hsplit, hval, hlt, hl1, hl2⟩
      · refine Or.inl ⟨by rw [he, h1], ?_⟩
        intro d hd
        rcases List.mem_cons.mp hd with rfl | hd2
        · exact not_lt.mp hab
        · exact h2 d hd2
      · refine Or.inr ⟨a :: l1, c, l2, by rw [hsplit]; rfl, by rw [he, hval], hlt,
          ?_, hl2⟩
        intro d hd
        rcases List.mem_cons.mp hd with rfl | hd2
        · exact lt_of_le_of_lt (not_lt.mp hab) hlt
        · exact hl1 d hd2

lemma pyMax_firstMax (f : Cause → ℚ) :
    ∃ l1 l2, causeList = l1 ++ pyMax f :: l2 ∧
      (∀ c ∈ l1, f c < f (pyMax f)) ∧ ∀ c ∈ l2, f c ≤ f (pyMax f) := by
  have htail : causeList = Cause.normal_operations :: causeList.tail := rfl
  rcases pyMaxAux_split f causeList.tail Cause.normal_operations with
    ⟨h1, h2⟩ | ⟨l1, c, l2, hsplit, hval, hlt, hl1, hl2⟩
  · have hp : pyMax f = Cause.normal_operations := h1
    refine ⟨[], causeList.tail, ?_, by simp, ?_⟩
    · rw [hp]
      exact htail
    · rw [hp]
      exact h2
  · have hp : pyMax f = c := hval
    refine ⟨Cause.normal_operations :: l1, l2, ?_, ?_, ?_⟩
    · rw [hp, htail, hsplit]
      rfl
    · rw [hp]
      intro d hd
      rcases List.mem_cons.mp hd with rfl | hd2
      · exact hlt
      · exact hl1 d hd2
    · rw [hp]
      exact hl2

/-- C5 (amended): every record's dominant_cause is the arg-max of the raw
(pre-rounding) contributions under first-wins tie-breaking in the
declaration order of the causes: the cause list splits around the dominant
cause with every earlier cause strictly below it and every later cause not
above it. -/
theorem C5_dominant_first_max (cfg : Cause → CauseCfg) (y : ℕ) (s : Streams) (i : ℕ)
    (hi : i < numHours y) :
    (generate_flare_data cfg y s)[i]? = some (recordAt cfg y s i) ∧
    (recordAt cfg y s i).dominant_cause = pyMax (rawAt cfg y s i) ∧
    ∃ l1 l2, causeList = l1 ++ (recordAt cfg y s i).dominant_cause :: l2 ∧
      (∀ c ∈ l1, rawAt cfg y s i c <
        rawAt cfg y s i (recordAt cfg y s i).dominant_cause) ∧
      ∀ c ∈ l2, rawAt cfg y s i c ≤
        rawAt cfg y s i (recordAt cfg y s i).dominant_cause := by
  refine ⟨generate_getElem cfg y s hi, recordAt_dominant cfg y s i, ?_⟩
  rw [recordAt_dominant]
  exact pyMax_firstMax (rawAt cfg y s i)

theorem C5_dominant_first_max_witness :
    (generate_flare_data FLARE_CAUSES 2024 zeroStreams)[0]? =
      some (recordAt FLARE_CAUSES 2024 zeroStreams 0) ∧
    (recordAt FLARE_CAUSES 2024 zeroStreams 0).dominant_cause =
      pyMax (rawAt FLARE_CAUSES 2024 zeroStreams 0) ∧
    ∃ l1 l2, causeList = l1 ++
        (recordAt FLARE_CAUSES 2024 zeroStreams 0).dominant_cause :: l2 ∧
      (∀ c ∈ l1, rawAt FLARE_CAUSES 2024 zeroStreams 0 c <
        rawAt FLARE_CAUSES 2024 zeroStreams 0
          (recordAt FLARE_CAUSES 2024 zeroStreams 0).dominant_cause) ∧
      ∀ c ∈ l2, rawAt FLARE_CAUSES 2024 zeroStreams 0 c ≤
        rawAt FLARE_CAUSES 2024 zeroStreams 0
          (recordAt FLARE_CAUSES 2024 zeroStreams 0).dominant_cause :=
  C5_dominant_first_max FLARE_CAUSES 2024 zeroStreams 0 (by decide)

/-- Streams exhibiting a rounding collision for C5: at hour 0 the raw
contributions are normal_operations = 10.001 and process_upset = 10.004
(the rest 0), which both export as 10.00. -/
def sC5 : Streams :=
  ⟨fun k => if k = 1 then -84999/7600 else if k = 2 then -3333/1250 else 0,
   fun k => if k = 0 then 0 else 1,
   fun k => if k % 2 = 0 then 24 else 0⟩

/-- C5 counterexample: a record whose dominant_cause is process_upset even
though normal_operations — the first cause in declaration order — attains
the maximum of the exported (rounded) contributions; so dominant_cause is
not the first-wins arg-max of the exported columns, refuting the claim as
stated over exported contributions. -/
theorem C5_dominant_cex :
    (generate_flare_data FLARE_CAUSES 2024 sC5)[0]? =
      some (recordAt FLARE_CAUSES 2024 sC5 0) ∧
    (recordAt FLARE_CAUSES 2024 sC5 0).dominant_cause = Cause.process_upset ∧
    (∀ c : Cause, (recordAt FLARE_CAUSES 2024 sC5 0).contrib c ≤
      (recordAt FLARE_CAUSES 2024 sC5 0).contrib Cause.normal_operations) ∧
    (recordAt FLARE_CAUSES 2024 sC5 0).dominant_cause ≠ Cause.normal_operations := by
  have hns : (0:ℕ) ∉ shutdownEvents 2024 (fun k => if k % 2 = 0 then 24 else 0) := by
    decide
  have hraw : rawAt FLARE_CAUSES 2024 sC5 0 =
      updateC (updateC (fun _ => 0) Cause.normal_operations (10001/1000))
        Cause.process_upset (2501/250) := by
    norm_num [rawAt, hourContribs, stateAt, hns, injectLoop, probCauses, clip, sC5,
      FLARE_CAUSES, monthOf, monthOfAux, monthLengths, isLeap]
  have hdom : (recordAt FLARE_CAUSES 2024 sC5 0).dominant_cause = Cause.process_upset := by
    rw [recordAt_dominant, hraw]
    simp [pyMax, pyMaxAux, causeList, updateC]
    norm_num
  refine ⟨generate_getElem FLARE_CAUSES 2024 sC5 (by decide), hdom, ?_, ?_⟩
  · intro c
    simp only [recordAt_contrib]
    rw [hraw]
    cases c <;> simp [updateC] <;> norm_num [round2, round_eq]
  · rw [hdom]
    decide

lemma round2_err (x : ℚ) : |round2 x - x| ≤ 1/200 := by
  have h := abs_sub_round (100 * x)
  have he : round2 x - x = -(100 * x - ((round (100 * x) : ℤ) : ℚ)) / 100 := by
    rw [round2]
    ring
  rw [he, abs_div, abs_neg]
  have h100 : |(100:ℚ)| = 100 := by norm_num
  rw [h100]
  linarith

/-- C6 (amended): every record's exported total is the rounding of the
exact in-record total, which is exactly the sum of the raw contributions;
each exported per-cause column is the rounding of the corresponding raw
contribution; consequently the exported total differs from the sum of the
7 exported contribution columns by at most 0.04 (8 roundings of at most
0.005 each), not 0.01 as claimed. -/
theorem C6_aggregation_identity (cfg : Cause → CauseCfg) (y : ℕ) (s : Streams) (i : ℕ)
    (hi : i < numHours y) :
    (generate_flare_data cfg y s)[i]? = some (recordAt cfg y s i) ∧
    (recordAt cfg y s i).total_flare_rate_m3_per_hour =
      round2 (sumValues (rawAt cfg y s i)) ∧
    (∀ c : Cause, (recordAt cfg y s i).contrib c = round2 (rawAt cfg y s i c)) ∧
    |(recordAt cfg y s i).total_flare_rate_m3_per_hour -
      sumValues ((recordAt cfg y s i).contrib)| ≤ 1/25 := by
  refine ⟨generate_getElem cfg y s hi, recordAt_total cfg y s i, fun c => rfl, ?_⟩
  have h1 := abs_le.mp (round2_err (rawAt cfg y s i Cause.normal_operations))
  have h2 := abs_le.mp (round2_err (rawAt cfg y s i Cause.process_upset))
  have h3 := abs_le.mp (round2_err (rawAt cfg y s i Cause.equipment_maintenance))
  have h4 := abs_le.mp (round2_err (rawAt cfg y s i Cause.startup_shutdown))
  have h5 := abs_le.mp (round2_err (rawAt cfg y s i Cause.emergency_relief))
  have h6 := abs_le.mp (round2_err (rawAt cfg y s i Cause.compressor_trip))
  have h7 := abs_le.mp (round2_err (rawAt cfg y s i Cause.instrument_failure))
  have hT := abs_le.mp (round2_err (sumValues (rawAt cfg y s i)))
  rw [recordAt_total, recordAt_contrib, abs_le]
  simp only [sumValues, causeList, List.map, List.sum_cons, List.sum_nil] at hT ⊢
  constructor <;> linarith

theorem C6_aggregation_identity_witness :
    (generate_flare_data FLARE_CAUSES 2024 zeroStreams)[0]? =
      some (recordAt FLARE_CAUSES 2024 zeroStreams 0) ∧
    (recordAt FLARE_CAUSES 2024 zeroStreams 0).total_flare_rate_m3_per_hour =
      round2 (sumValues (rawAt FLARE_CAUSES 2024 zeroStreams 0)) ∧
    (∀ c : Cause, (recordAt FLARE_CAUSES 2024 zeroStreams 0).contrib c =
      round2 (rawAt FLARE_CAUSES 2024 zeroStreams 0 c)) ∧
    |(recordAt FLARE_CAUSES 2024 zeroStreams 0).total_flare_rate_m3_per_hour -
      sumValues ((recordAt FLARE_CAUSES 2024 zeroStreams 0).contrib)| ≤ 1/25 :=
  C6_aggregation_identity FLARE_CAUSES 2024 zeroStreams 0 (by decide)

/-- Streams exhibiting rounding drift for C6: at hour 0 the six nonzero
contributions are all 10.0049, each exporting as 10.00, while the exact
total 60.0294 exports as 60.03. -/
def sC6 : Streams :=
  ⟨fun k =>
    if k = 1 then -849951/76000 else
    if k = 2 then -133317/50000 else
    if k = 3 then -299951/120000 else
    if k = 4 then -699951/250000 else
    if k = 5 then -1099951/300000 else
    if k = 6 then -499951/200000 else 0,
   fun _ => 0,
   fun k => if k % 2 = 0 then 24 else 0⟩

/-- C6 counterexample: a record whose exported total differs from the sum
of its exported contribution columns by 0.03, exceeding the claimed ±0.01
rounding tolerance. -/
theorem C6_aggregation_cex :
    (generate_flare_data FLARE_CAUSES 2024 sC6)[0]? =
      some (recordAt FLARE_CAUSES 2024 sC6 0) ∧
    ¬ |(recordAt FLARE_CAUSES 2024 sC6 0).total_flare_rate_m3_per_hour -
        sumValues ((recordAt FLARE_CAUSES 2024 sC6 0).contrib)| ≤ 1/100 := by
  have hns : (0:ℕ) ∉ shutdownEvents 2024 (fun k => if k % 2 = 0 then 24 else 0) := by
    decide
  have hraw : rawAt FLARE_CAUSES 2024 sC6 0 =
      updateC (updateC (updateC (updateC (updateC (updateC (fun _ => 0)
        Cause.normal_operations (100049/10000))
        Cause.process_upset (100049/10000))
        Cause.equipment_maintenance (100049/10000))
        Cause.emergency_relief (100049/10000))
        Cause.compressor_trip (100049/10000))
        Cause.instrument_failure (100049/10000) := by
    norm_num [rawAt, hourContribs, stateAt, hns, injectLoop, probCauses, clip, sC6,
      FLARE_CAUSES, monthOf, monthOfAux, monthLengths, isLeap]
  have hT : sumValues (rawAt FLARE_CAUSES 2024 sC6 0) = 300147/5000 := by
    rw [hraw]
    simp [sumValues, causeList, updateC]
    norm_num
  have hexp : sumValues ((recordAt FLARE_CAUSES 2024 sC6 0).contrib) = 60 := by
    simp only [recordAt_contrib]
    rw [hraw]
    simp [sumValues, causeList, updateC]
    norm_num [round2, round_eq]
  refine ⟨generate_getElem FLARE_CAUSES 2024 sC6 (by decide), ?_⟩
  rw [recordAt_total, hT, hexp]
  norm_num [round2, round_eq, abs_of_nonneg]
